import Mathlib

/-!
Verification of the qute-rust userscript helper library (src/env.rs, src/util.rs).

The embedding is shallow and state-passing:
* the process environment is a snapshot `Env := String → Option String`
  (`std::env::var` returning Ok/Err becomes a lookup);
* the filesystem is `FS := String → Option String`, mapping a path to the byte
  content currently observable by a reader at that path (`none` means the path
  does not exist, so opening it fails with not-found);
* Rust panics (the `expect` in `unwrap_env`, the panicking arm in `mode`) and
  `io::Error` results are merged into one `Except QuteError` so that the
  distinct failure conditions stay distinguishable;
* `File::open` in Rust opens the file in read-only mode; this is modelled by a
  `Handle` that records its access mode, and `write_all` on a read-only handle
  fails (EBADF on Unix) exactly as the OS does, except that `write_all` with an
  empty buffer returns Ok without issuing any write call, as the Rust standard
  library does.
-/

/-- A snapshot of the process environment: variable name to value. -/
abbrev Env := String → Option String

/-- The filesystem: path to the content a reader of that path observes;
`none` means no object exists at the path. -/
abbrev FS := String → Option String

/-- Failure of an underlying I/O call (`std::io::Error`). -/
inductive IoError where
  /-- `File::open` on a path that does not exist (ErrorKind NotFound). -/
  | notFound (path : String)
  /-- a write issued on a handle that was opened without write access
  (EBADF on Unix, access-denied on Windows). -/
  | badDescriptor
deriving DecidableEq

/-- The failure conditions of the library: missing environment variable
(the `expect` message "variable KEY not set" names the variable), invalid
launch-mode discriminator (the panicking arm of `mode`), or an I/O failure. -/
inductive QuteError where
  | MissingVariable (name : String)
  | InvalidDiscriminator (value : String)
  | IoErr (e : IoError)
deriving DecidableEq

/-- `fn unwrap_env(key: &str) -> String` from src/env.rs: `env::var(key)`
with `expect` on absence; the panic becomes a `MissingVariable` failure
carrying the variable name, as in the panic message. -/
def unwrap_env (env : Env) (key : String) : Except QuteError String :=
  match env key with
  | some v => Except.ok v
  | none => Except.error (QuteError.MissingVariable key)

/-- `struct HintsVars` from src/env.rs (fieldless). -/
structure HintsVars where

/-- `struct CommandVars` from src/env.rs (fieldless). -/
structure CommandVars where

/-- `enum SpawnMode` from src/env.rs. -/
inductive SpawnMode where
  | Hints (v : HintsVars)
  | Command (v : CommandVars)

def MODE : String := "QUTE_MODE"

/-- `fn mode() -> SpawnMode` from src/env.rs: match on `unwrap_env(MODE)`;
the `_ => panic!` arm becomes an `InvalidDiscriminator` failure. -/
def mode (env : Env) : Except QuteError SpawnMode :=
  match unwrap_env env MODE with
  | Except.error e => Except.error e
  | Except.ok m =>
    if m = "hints" then Except.ok (SpawnMode.Hints ⟨⟩)
    else if m = "command" then Except.ok (SpawnMode.Command ⟨⟩)
    else Except.error (QuteError.InvalidDiscriminator m)

def HINTS_URL : String := "QUTE_URL"
def HINTS_SELECTED_TEXT : String := "QUTE_SELECTED_TEXT"
def HINTS_SELECTED_HTML : String := "QUTE_SELECTED_HTML"

/-- `HintsVars::url()` (associated function, no receiver). -/
def HintsVars.url (env : Env) : Except QuteError String :=
  unwrap_env env HINTS_URL

/-- `HintsVars::selected_text(&self)`. -/
def HintsVars.selected_text (_v : HintsVars) (env : Env) : Except QuteError String :=
  unwrap_env env HINTS_SELECTED_TEXT

/-- `HintsVars::selected_html(&self)`. -/
def HintsVars.selected_html (_v : HintsVars) (env : Env) : Except QuteError String :=
  unwrap_env env HINTS_SELECTED_HTML

def COMMAND_URL : String := "QUTE_URL"
def COMMAND_TITLE : String := "QUTE_TITLE"
def COMMAND_SELECTED_TEXT : String := "QUTE_SELECTED_TEXT"
def COMMAND_COUNT : String := "QUTE_COUNT"

/-- `CommandVars::url()` (associated function, no receiver). -/
def CommandVars.url (env : Env) : Except QuteError String :=
  unwrap_env env COMMAND_URL

/-- `CommandVars::title(&self)`. -/
def CommandVars.title (_v : CommandVars) (env : Env) : Except QuteError String :=
  unwrap_env env COMMAND_TITLE

/-- `CommandVars::selected_text(&self)`. -/
def CommandVars.selected_text (_v : CommandVars) (env : Env) : Except QuteError String :=
  unwrap_env env COMMAND_SELECTED_TEXT

/-- `CommandVars::count(&self)`. -/
def CommandVars.count (_v : CommandVars) (env : Env) : Except QuteError String :=
  unwrap_env env COMMAND_COUNT

def USER_AGENT : String := "QUTE_USER_AGENT"

/-- `fn user_agent() -> String`. -/
def user_agent (env : Env) : Except QuteError String :=
  unwrap_env env USER_AGENT

def HTML : String := "QUTE_HTML"

/-- `fn html() -> PathBuf`; the `.into()` conversion from String to PathBuf
preserves the string, so the path is modelled as the string itself. -/
def html (env : Env) : Except QuteError String :=
  unwrap_env env HTML

def TEXT : String := "QUTE_TEXT"

/-- `fn text() -> PathBuf`. -/
def text (env : Env) : Except QuteError String :=
  unwrap_env env TEXT

/-- A handle returned by opening a file, recording the access mode the
open call requested: `File::open` yields `writable := false`. -/
structure Handle where
  path : String
  writable : Bool

/-- `File::write_all` on a handle: the standard library loops while the buffer
is non-empty, so an empty buffer returns Ok with no write issued; a non-empty
buffer on a read-only handle fails (EBADF); on a writable handle the bytes are
appended to what a reader of the path observes. Returns the result paired with
the filesystem after the call. -/
def Handle.write_all (h : Handle) (fs : FS) (msg : String) :
    Except IoError Unit × FS :=
  if msg = "" then (Except.ok (), fs)
  else if h.writable then
    (Except.ok (), fun q => if q = h.path then some ((fs q).getD "" ++ msg) else fs q)
  else (Except.error IoError.badDescriptor, fs)

/-- `struct Fifo { path: PathBuf }` from src/env.rs. -/
structure Fifo where
  path : String

/-- `Fifo::new<P: AsRef<Path>>(path: P)`: stores `path.as_ref().into()`, which
preserves the path string. It takes no filesystem argument: construction
performs no I/O and no existence, type, or permission check, and it is a total
function: it cannot fail. -/
def Fifo.new (p : String) : Fifo :=
  { path := p }

/-- `Fifo::file(&self)`: `File::open(&self.path)`. `File::open` attempts to
open the file in READ-ONLY mode, so the handle it yields is not writable;
it fails with not-found when the path does not exist. -/
def Fifo.file (f : Fifo) (fs : FS) : Except IoError Handle :=
  match fs f.path with
  | some _ => Except.ok { path := f.path, writable := false }
  | none => Except.error (IoError.notFound f.path)

/-- `Fifo::write(&self, message: &str)`: `let mut file = self.file()?;
file.write_all(message.as_bytes())`. The open error propagates before any
write; otherwise `write_all` runs on the (read-only) handle. -/
def Fifo.write (f : Fifo) (fs : FS) (message : String) :
    Except IoError Unit × FS :=
  match f.file fs with
  | Except.error e => (Except.error e, fs)
  | Except.ok file => file.write_all fs message

def FIFO : String := "QUTE_FIFO"

/-- `fn fifo() -> Fifo`: `Fifo::new(unwrap_env(FIFO))`. -/
def fifo (env : Env) : Except QuteError Fifo :=
  match unwrap_env env FIFO with
  | Except.error e => Except.error e
  | Except.ok s => Except.ok (Fifo.new s)

def CONFIG_DIR : String := "QUTE_CONFIG_DIR"

/-- `fn config_dir() -> PathBuf`. -/
def config_dir (env : Env) : Except QuteError String :=
  unwrap_env env CONFIG_DIR

def DATA_DIR : String := "QUTE_DATA_DIR"

/-- `fn data_dir() -> PathBuf`. -/
def data_dir (env : Env) : Except QuteError String :=
  unwrap_env env DATA_DIR

def DOWNLOAD_DIR : String := "QUTE_DOWNLOAD_DIR"

/-- `fn download_dir() -> PathBuf`. -/
def download_dir (env : Env) : Except QuteError String :=
  unwrap_env env DOWNLOAD_DIR

def COMMANDLINE_TEXT : String := "QUTE_COMMANDLINE_TEXT"

/-- `fn commandline_text() -> String`. -/
def commandline_text (env : Env) : Except QuteError String :=
  unwrap_env env COMMANDLINE_TEXT

/-- `enum Mode` from src/util.rs. -/
inductive Mode where
  | Normal
  | Insert
  | Caret
  | Passthrough

/-- The Rust variant name of a `Mode` value, as written in the source. -/
def Mode.variantName : Mode → String
  | Mode.Normal => "Normal"
  | Mode.Insert => "Insert"
  | Mode.Caret => "Caret"
  | Mode.Passthrough => "Passthrough"

/-- Injects the `io::Error` side of `Fifo::write` into the combined failure
type, keeping the result/filesystem pair. -/
def lift_write (r : Except IoError Unit × FS) : Except QuteError Unit × FS :=
  match r with
  | (Except.ok u, fs2) => (Except.ok u, fs2)
  | (Except.error e, fs2) => (Except.error (QuteError.IoErr e), fs2)

/-- `fn send_command(cmd: &str)` from src/util.rs:
`let fifo = env::fifo(); fifo.write(cmd)`. The environment is read at each
call (`env::fifo()` is invoked inside the function body). -/
def send_command (env : Env) (fs : FS) (cmd : String) :
    Except QuteError Unit × FS :=
  match fifo env with
  | Except.error e => (Except.error e, fs)
  | Except.ok f => lift_write (f.write fs cmd)

/-- `fn enter_mode(mode: Mode)` from src/util.rs: matches the mode to its
lowercase name and sends `format!("enter-mode \x7b\x7d", mode_str)`. -/
def enter_mode (env : Env) (fs : FS) (m : Mode) : Except QuteError Unit × FS :=
  let mode_str :=
    match m with
    | Mode.Normal => "normal"
    | Mode.Insert => "insert"
    | Mode.Caret => "caret"
    | Mode.Passthrough => "passthrough"
  let message := "enter-mode " ++ mode_str
  send_command env fs message

/-- `fn fake_key(s: &str)` from src/util.rs: sends
`format!("fake-key \x7b\x7d", s)`. -/
def fake_key (env : Env) (fs : FS) (s : String) : Except QuteError Unit × FS :=
  let message := "fake-key " ++ s
  send_command env fs message

/-- The full set of environment variables the library reads. -/
def quteVars : List String :=
  [ MODE, HINTS_URL, HINTS_SELECTED_TEXT, HINTS_SELECTED_HTML,
   COMMAND_TITLE, COMMAND_COUNT, USER_AGENT, HTML, TEXT, FIFO,
   CONFIG_DIR, DATA_DIR, DOWNLOAD_DIR, COMMANDLINE_TEXT]

/-- Enumeration of the variant-scoped and auxiliary accessors. -/
inductive Accessor where
  | hintsUrl
  | hintsSelectedText
  | hintsSelectedHtml
  | commandUrl
  | commandTitle
  | commandSelectedText
  | commandCount
  | userAgentA
  | htmlA
  | textA
  | configDirA
  | dataDirA
  | downloadDirA
  | commandlineTextA

/-- The one environment variable each accessor is backed by. -/
def Accessor.envVar : Accessor → String
  | Accessor.hintsUrl => HINTS_URL
  | Accessor.hintsSelectedText => HINTS_SELECTED_TEXT
  | Accessor.hintsSelectedHtml => HINTS_SELECTED_HTML
  | Accessor.commandUrl => COMMAND_URL
  | Accessor.commandTitle => COMMAND_TITLE
  | Accessor.commandSelectedText => COMMAND_SELECTED_TEXT
  | Accessor.commandCount => COMMAND_COUNT
  | Accessor.userAgentA => USER_AGENT
  | Accessor.htmlA => HTML
  | Accessor.textA => TEXT
  | Accessor.configDirA => CONFIG_DIR
  | Accessor.dataDirA => DATA_DIR
  | Accessor.downloadDirA => DOWNLOAD_DIR
  | Accessor.commandlineTextA => COMMANDLINE_TEXT

/-- Running an accessor against an environment snapshot: each case is the
corresponding source function. -/
def Accessor.run : Accessor → Env → Except QuteError String
  | Accessor.hintsUrl, env => HintsVars.url env
  | Accessor.hintsSelectedText, env => HintsVars.selected_text ⟨⟩ env
  | Accessor.hintsSelectedHtml, env => HintsVars.selected_html ⟨⟩ env
  | Accessor.commandUrl, env => CommandVars.url env
  | Accessor.commandTitle, env => CommandVars.title ⟨⟩ env
  | Accessor.commandSelectedText, env => CommandVars.selected_text ⟨⟩ env
  | Accessor.commandCount, env => CommandVars.count ⟨⟩ env
  | Accessor.userAgentA, env => user_agent env
  | Accessor.htmlA, env => html env
  | Accessor.textA, env => text env
  | Accessor.configDirA, env => config_dir env
  | Accessor.dataDirA, env => data_dir env
  | Accessor.downloadDirA, env => download_dir env
  | Accessor.commandlineTextA, env => commandline_text env

/-- Lowercasing of a variant name, character by character. -/
def lowercase (s : String) : String :=
  String.mk (s.data.map Char.toLower)

/-- An environment with only the discriminator set, to "hints". -/
def envHints : Env := fun k => if k = "QUTE_MODE" then some "hints" else none

/-- The empty environment: no variable set. -/
def envEmpty : Env := fun _ => none

/-- An environment with only the FIFO path set, to "/a". -/
def envFifoA : Env := fun k => if k = "QUTE_FIFO" then some "/a" else none

/-- An environment that sets none of the variables of the library but is not the
empty function (a variable foreign to the library is set). -/
def envNoise : Env := fun k => if k = "NOT_A_QUTE_VAR" then some "noise" else none

/-- An environment where only the user-agent variable is set. -/
def envUA1 : Env := fun k => if k = "QUTE_USER_AGENT" then some "ua" else none

/-- An environment agreeing with `envUA1` on the user-agent variable and
differing from it on every other variable. -/
def envUA2 : Env := fun k => if k = "QUTE_USER_AGENT" then some "ua" else some "other"

/-- The empty filesystem: no path exists. -/
def fsEmpty : FS := fun _ => none

/-- A filesystem holding one (empty) pipe object at /run/qute/fifo. -/
def fsPipe : FS := fun p => if p = "/run/qute/fifo" then some "" else none

/-- `unwrap_env` only looks at the value of its own key. -/
theorem unwrap_env_congr (env₁ env₂ : Env) (k : String) (h : env₁ k = env₂ k) :
    unwrap_env env₁ k = unwrap_env env₂ k := by
  unfold unwrap_env
  rw [h]

/-- Every accessor is exactly `unwrap_env` on its backing variable. -/
theorem Accessor.run_eq_unwrap (a : Accessor) (env : Env) :
    a.run env = unwrap_env env a.envVar := by
  cases a <;> rfl

/-- The backing variable of every accessor is one of the variables of the library. -/
theorem Accessor.envVar_mem_quteVars (a : Accessor) : a.envVar ∈ quteVars := by
  cases a <;> decide

/-- Claim C1: launch-mode resolution is total over the discriminator: value
"hints" yields exactly the hints variant, "command" exactly the command
variant, any other value an InvalidDiscriminator failure carrying that value,
and an absent variable a MissingVariable failure carrying QUTE_MODE — never
both variants, never neither. -/
theorem mode_total_over_discriminator (env : Env) :
    (env MODE = some "hints" → mode env = Except.ok (SpawnMode.Hints ⟨⟩)) ∧
    (env MODE = some "command" → mode env = Except.ok (SpawnMode.Command ⟨⟩)) ∧
    (∀ v, env MODE = some v → v ≠ "hints" → v ≠ "command" →
      mode env = Except.error (QuteError.InvalidDiscriminator v)) ∧
    (env MODE = none → mode env = Except.error (QuteError.MissingVariable MODE)) := by
  refine ⟨?_, ?_, ?_, ?_⟩
  · intro h
    simp [mode, unwrap_env, h]
  · intro h
    simp [mode, unwrap_env, h]
  · intro v h h1 h2
    simp [mode, unwrap_env, h, h1, h2]
  · intro h
    simp [mode, unwrap_env, h]

/-- Witness for C1 at concrete environments. -/
theorem mode_total_over_discriminator_witness :
    mode envHints = Except.ok (SpawnMode.Hints ⟨⟩) ∧
    mode envEmpty = Except.error (QuteError.MissingVariable MODE) :=
  ⟨(mode_total_over_discriminator envHints).1 rfl,
   (mode_total_over_discriminator envEmpty).2.2.2 rfl⟩

/-- Claim C2: evaluation of the code at the failing input. The spec says
`send` writes the raw bytes and succeeds whenever the channel path is
writable, but `Fifo::write` opens the path with `File::open`, which requests
read-only access, so the subsequent `write_all` of a non-empty message fails
(EBADF) even on a perfectly writable path, and no byte reaches the channel:
here the path /run/qute/fifo exists and the filesystem is returned unchanged
together with the write error. -/
theorem fifo_write_opens_readonly_and_fails :
    (Fifo.new "/run/qute/fifo").write fsPipe "enter-mode insert" =
      (Except.error IoError.badDescriptor, fsPipe) := rfl

/-- Claim C3: `enter_mode m` invokes `send_command` with exactly the line
"enter-mode " followed by the lowercase variant name of `m` (in particular
Caret gives exactly "enter-mode caret"), and `fake_key s` invokes it with
exactly "fake-key " followed by `s` verbatim; both return exactly what
`send_command` returns on that line — the equalities below are equalities of
the full result. -/
theorem helpers_send_exact_lines (env : Env) (fs : FS) :
    (∀ m : Mode, enter_mode env fs m =
      send_command env fs ("enter-mode " ++ lowercase m.variantName)) ∧
    (∀ s : String, fake_key env fs s = send_command env fs ("fake-key " ++ s)) ∧
    enter_mode env fs Mode.Caret = send_command env fs "enter-mode caret" := by
  refine ⟨?_, fun s => rfl, rfl⟩
  intro m
  cases m <;> rfl

/-- Claim C4: when the channel path does not exist, the open fails and
`Fifo::write` returns the underlying not-found error before any write is
attempted: the filesystem component of the result is the input filesystem
unchanged, so no partial write is observable by a reader. -/
theorem fifo_write_open_failure_writes_nothing (f : Fifo) (fs : FS) (msg : String)
    (h : fs f.path = none) :
    f.write fs msg = (Except.error (IoError.notFound f.path), fs) := by
  unfold Fifo.write Fifo.file
  rw [h]

/-- Witness for C4 at a concrete missing path. -/
theorem fifo_write_open_failure_witness :
    (Fifo.new "/missing").write fsEmpty "enter-mode insert" =
      (Except.error (IoError.notFound "/missing"), fsEmpty) :=
  fifo_write_open_failure_writes_nothing (Fifo.new "/missing") fsEmpty
    "enter-mode insert" rfl

/-- Counterexample to claim C5: the channel path is NOT resolved once and
reused; `send_command` re-reads the environment on every call, so its result
depends on the environment at call time: with QUTE_FIFO set to "/a" the call
reaches the I/O layer, while with the variable absent the same call fails
with the missing-variable failure. -/
theorem send_command_not_env_independent :
    (send_command envFifoA fsEmpty "open qutebrowser.org").1 ≠
      (send_command envEmpty fsEmpty "open qutebrowser.org").1 := by
  intro hcontra
  have h1 : (send_command envFifoA fsEmpty "open qutebrowser.org").1
      = Except.error (QuteError.IoErr (IoError.notFound "/a")) := rfl
  have h2 : (send_command envEmpty fsEmpty "open qutebrowser.org").1
      = Except.error (QuteError.MissingVariable FIFO) := rfl
  rw [h1, h2] at hcontra
  injection hcontra with h3
  exact QuteError.noConfusion h3

/-- Claim C5 as amended: each `send_command` call re-resolves the channel
path from QUTE_FIFO at call time and uses exactly the path the environment
holds at that call; within one call, the constructed Fifo value stores that
path and the write uses it. A single Fifo value obtained from `fifo` does
reuse its stored path across `write` calls, but `send_command` constructs a
fresh one per call. -/
theorem send_command_resolves_path_each_call (env : Env) (fs : FS)
    (cmd p : String) (h : env FIFO = some p) :
    send_command env fs cmd = lift_write ((Fifo.new p).write fs cmd) := by
  unfold send_command fifo unwrap_env
  rw [h]

/-- Witness for the amended C5 at a concrete environment. -/
theorem send_command_resolves_path_each_call_witness :
    send_command envFifoA fsEmpty "open qutebrowser.org"
      = lift_write ((Fifo.new "/a").write fsEmpty "open qutebrowser.org") :=
  send_command_resolves_path_each_call envFifoA fsEmpty
    "open qutebrowser.org" "/a" rfl

/-- Claim C6: every variant-scoped and auxiliary accessor reads exactly one
environment variable: its result is determined by the value of its backing
variable alone (so it is independent of every other variable and of which
launch variant, if any, was resolved), and when that variable is unset it
fails with the MissingVariable failure carrying exactly the name of that
variable. -/
theorem accessor_reads_single_variable :
    (∀ (a : Accessor) (env₁ env₂ : Env),
      env₁ a.envVar = env₂ a.envVar → a.run env₁ = a.run env₂) ∧
    (∀ (a : Accessor) (env : Env),
      env a.envVar = none →
        a.run env = Except.error (QuteError.MissingVariable a.envVar)) := by
  constructor
  · intro a env₁ env₂ h
    rw [Accessor.run_eq_unwrap, Accessor.run_eq_unwrap]
    exact unwrap_env_congr env₁ env₂ a.envVar h
  · intro a env h
    rw [Accessor.run_eq_unwrap]
    unfold unwrap_env
    rw [h]

/-- Witness for C6: the user-agent accessor gives the same result under two
environments differing everywhere except on QUTE_USER_AGENT, and the hints
URL accessor on the empty environment fails naming QUTE_URL. -/
theorem accessor_reads_single_variable_witness :
    Accessor.run Accessor.userAgentA envUA1 = Accessor.run Accessor.userAgentA envUA2 ∧
    Accessor.run Accessor.hintsUrl envEmpty
      = Except.error (QuteError.MissingVariable HINTS_URL) :=
  ⟨accessor_reads_single_variable.1 Accessor.userAgentA envUA1 envUA2 rfl,
   accessor_reads_single_variable.2 Accessor.hintsUrl envEmpty rfl⟩

/-- Claim C7: the URL accessors of the two variants read the same underlying
variable (QUTE_URL), and likewise the two selected-text accessors
(QUTE_SELECTED_TEXT): on every environment the hints-variant accessor and the
command-variant accessor return the same value. -/
theorem shared_url_selected_text_variables :
    HINTS_URL = COMMAND_URL ∧
    HINTS_SELECTED_TEXT = COMMAND_SELECTED_TEXT ∧
    (∀ env : Env, HintsVars.url env = CommandVars.url env) ∧
    (∀ (hv : HintsVars) (cv : CommandVars) (env : Env),
      hv.selected_text env = cv.selected_text env) :=
  ⟨rfl, rfl, fun _ => rfl, fun _ _ _ => rfl⟩

/-- Claim C8: `send_command`, `enter_mode` and `fake_key` re-resolve the
channel path from QUTE_FIFO at call time: whenever the variable is unset at
that call — whatever the filesystem state left by earlier calls — the call
fails with the missing-variable failure naming QUTE_FIFO, which is a
different constructor from every IoErr result. -/
theorem command_helpers_reresolve_fifo (env : Env) (fs : FS)
    (h : env FIFO = none) :
    (∀ cmd, send_command env fs cmd
        = (Except.error (QuteError.MissingVariable FIFO), fs)) ∧
    (∀ m, enter_mode env fs m
        = (Except.error (QuteError.MissingVariable FIFO), fs)) ∧
    (∀ s, fake_key env fs s
        = (Except.error (QuteError.MissingVariable FIFO), fs)) ∧
    (∀ e : IoError, QuteError.MissingVariable FIFO ≠ QuteError.IoErr e) := by
  have hs : ∀ cmd, send_command env fs cmd
      = (Except.error (QuteError.MissingVariable FIFO), fs) := by
    intro cmd
    unfold send_command fifo unwrap_env
    rw [h]
  refine ⟨hs, ?_, fun s => hs _, fun e hcontra => QuteError.noConfusion hcontra⟩
  intro m
  cases m <;> exact hs _

/-- Witness for C8 at the empty environment. -/
theorem command_helpers_reresolve_fifo_witness :
    send_command envEmpty fsPipe "open qutebrowser.org"
      = (Except.error (QuteError.MissingVariable FIFO), fsPipe) :=
  (command_helpers_reresolve_fifo envEmpty fsPipe rfl).1 "open qutebrowser.org"

/-- Claim C9: constructing the channel never fails and performs no I/O:
`Fifo.new` is a total function taking no filesystem argument, it stores the
given path unchanged, and `fifo` stores exactly the QUTE_FIFO string as the
path; only the later open/write calls can produce an I/O error. -/
theorem fifo_new_stores_path_unchanged :
    (∀ p : String, (Fifo.new p).path = p) ∧
    (∀ (env : Env) (s : String),
      env FIFO = some s → fifo env = Except.ok (Fifo.new s)) := by
  constructor
  · intro p
    rfl
  · intro env s h
    unfold fifo unwrap_env
    rw [h]

/-- Witness for C9 at a concrete path and environment. -/
theorem fifo_new_stores_path_unchanged_witness :
    (Fifo.new "/q").path = "/q" ∧ fifo envFifoA = Except.ok (Fifo.new "/a") :=
  ⟨fifo_new_stores_path_unchanged.1 "/q",
   fifo_new_stores_path_unchanged.2 envFifoA "/a" rfl⟩

/-- Claim C10: every operation is deterministic in the environment snapshot:
two environments that bind the variables of the library identically give identical
launch-mode resolution, identical accessor results, identical channel
resolution, and identical command-helper results — in particular the
filesystem (hence the bytes observable on the channel) produced by
`send_command`, `enter_mode` and `fake_key` is identical. -/
theorem deterministic_in_env_snapshot (env₁ env₂ : Env)
    (h : ∀ k, k ∈ quteVars → env₁ k = env₂ k) :
    mode env₁ = mode env₂ ∧
    (∀ a : Accessor, a.run env₁ = a.run env₂) ∧
    fifo env₁ = fifo env₂ ∧
    (∀ fs cmd, send_command env₁ fs cmd = send_command env₂ fs cmd) ∧
    (∀ fs m, enter_mode env₁ fs m = enter_mode env₂ fs m) ∧
    (∀ fs s, fake_key env₁ fs s = fake_key env₂ fs s) := by
  have hm : unwrap_env env₁ MODE = unwrap_env env₂ MODE :=
    unwrap_env_congr env₁ env₂ MODE (h MODE (by decide))
  have hf : fifo env₁ = fifo env₂ := by
    unfold fifo
    rw [unwrap_env_congr env₁ env₂ FIFO (h FIFO (by decide))]
  have hsend : ∀ fs cmd, send_command env₁ fs cmd = send_command env₂ fs cmd := by
    intro fs cmd
    unfold send_command
    rw [hf]
  refine ⟨?_, ?_, hf, hsend, ?_, fun fs s => hsend fs _⟩
  · unfold mode
    rw [hm]
  · intro a
    rw [Accessor.run_eq_unwrap, Accessor.run_eq_unwrap]
    exact unwrap_env_congr env₁ env₂ a.envVar (h a.envVar a.envVar_mem_quteVars)
  · intro fs m
    cases m <;> exact hsend fs _

/-- Witness for C10: the empty environment and an environment binding only a
variable foreign to the library agree on all library variables, and resolve
the launch mode identically. -/
theorem deterministic_in_env_snapshot_witness :
    mode envEmpty = mode envNoise :=
  (deterministic_in_env_snapshot envEmpty envNoise
    (by intro k hk; fin_cases hk <;> rfl)).1
